import Mathlib

/-!
Verification development for the DEST face-database import pipeline
(`src/io/database_io.cpp`).

Shallow embedding conventions:
* `float` coordinates are modelled as `ℚ`; the decimal literals occurring in
  the claims (`0.5`, integers, halves) are exactly representable as IEEE
  floats, so rational arithmetic agrees with the source on every input used
  here.
* An annotation file is modelled as `Option (List (List Char))`: `none` means
  the file cannot be opened; `some lines` is the list of its lines (each a
  list of characters).  For `std::getline` an unopenable file and an empty
  file behave identically (every read fails, the line stays empty).
* `core::Shape` is a 2×N column matrix (`Eigen::Matrix<float,2,Dynamic>`),
  modelled as the list of its columns.  `rows()` is always 2, so the C++
  test `s.rows() > 0 && s.cols() > 0` reduces to `0 < s.length` here.
* Reads of uninitialized variables (a failed `stream >> x` leaves `x`
  indeterminate) and out-of-bounds Eigen writes are undefined behavior in
  the source; the embedding returns `none : Option _` at exactly those
  points so that every theorem is about defined executions.
* `cv::Mat` images are opaque apart from their integer dimensions.
-/

attribute [local semireducible] Rat.add Rat.sub Rat.mul Rat.inv

namespace DestIO

/-- Landmark matrix `core::Shape` (2×N), as the list of its `(x, y)` columns. -/
abbrev Shape : Type := List (ℚ × ℚ)

/-- Bounding matrix `core::Rect` (2×M), as the list of its `(x, y)` columns.
Modelled from the spec: the `core::Rect` type is declared in a header that is
not part of the sources at hand; per the spec (§3) it is a 2×M matrix with M
small and fixed (4 corners), so a `Rect` here is a column list whose length
is 4 for every value the program constructs. -/
abbrev Rect : Type := List (ℚ × ℚ)

/-- Modelled from the spec: a default-constructed `core::Rect` (fixed-size
2×4 Eigen matrix) has 4 allocated columns.  Their initial contents are never
read before being written, so we take them to be zero. -/
def defaultRect : Rect := List.replicate 4 ((0 : ℚ), (0 : ℚ))

/-- A decoded grayscale raster, opaque apart from its dimensions
(`cv::Mat::cols` = `w`, `cv::Mat::rows` = `h`). -/
structure Img where
  w : ℕ
  h : ℕ
deriving DecidableEq, Repr

/-- `dest::io::ImportParameters`: `maxImageSideLength` is a C++ `int`
(possibly negative), `generateVerticallyMirrored` a `bool`. -/
structure ImportParameters where
  maxImageSideLength : ℤ
  generateVerticallyMirrored : Bool
deriving DecidableEq, Repr

/-- The caller-owned output collections threaded through an import call. -/
structure DBState where
  images : List Img
  shapes : List Shape
  rects : List Rect
deriving DecidableEq, Repr

/-- File contents: `none` = the file cannot be opened.  Unopenable and empty
files are indistinguishable to the line-reading loops of the source. -/
def fileLines (file : Option (List (List Char))) : List (List Char) :=
  file.getD []

/-! ### Character/string primitives used by the parsers -/

/-- Value of a maximal leading digit run (used by `atol` and the numeric
extractions). -/
def digitsVal (l : List Char) : ℤ :=
  (l.takeWhile Char.isDigit).foldl (fun a c => a * 10 + ((c.toNat : ℤ) - ('0'.toNat : ℤ))) 0

/-- C `atol`: skip leading whitespace, optional sign, maximal digit run;
`0` when no digits follow. -/
def atol (l : List Char) : ℤ :=
  match l.dropWhile Char.isWhitespace with
  | '-' :: rest => -(digitsVal rest)
  | '+' :: rest => digitsVal rest
  | rest => digitsVal rest

/-- Stream extraction of an `int` from a token: optional sign then at least
one digit; `none` when extraction fails (the C++ target variable is then
indeterminate). -/
def leadingInt (l : List Char) : Option ℤ :=
  match l with
  | '-' :: rest => if (rest.takeWhile Char.isDigit) = [] then none else some (-(digitsVal rest))
  | '+' :: rest => if (rest.takeWhile Char.isDigit) = [] then none else some (digitsVal rest)
  | rest => if (rest.takeWhile Char.isDigit) = [] then none else some (digitsVal rest)

/-- Stream extraction of a `float` from a token: optional sign, decimal
digits with an optional fractional part; `none` on failure.  The value is
exact in `ℚ`. -/
def parseFloatQ (l : List Char) : Option ℚ :=
  let sign : ℚ := match l with
    | '-' :: _ => -1
    | _ => 1
  let l1 := match l with
    | '-' :: rest => rest
    | '+' :: rest => rest
    | rest => rest
  let ip := l1.takeWhile Char.isDigit
  let after := l1.dropWhile Char.isDigit
  let fp := match after with
    | '.' :: rest => rest.takeWhile Char.isDigit
    | _ => []
  if ip.length + fp.length = 0 then none
  else some (sign * ((digitsVal ip : ℚ) + (digitsVal fp : ℚ) / (10 : ℚ) ^ fp.length))

/-- Whitespace tokenization, as performed by repeated `stream >> tok`. -/
def wsTokens (l : List Char) : List (List Char) :=
  (l.foldr
    (fun c acc =>
      if c.isWhitespace then [] :: acc
      else
        match acc with
        | [] => [[c]]
        | t :: ts => (c :: t) :: ts)
    []).filter (fun t => t ≠ [])

/-- Does `pat` occur as a prefix of `l`? -/
def hasPrefixChk : List Char → List Char → Bool
  | [], _ => true
  | _ :: _, [] => false
  | a :: as, b :: bs => a = b && hasPrefixChk as bs

/-- Does `pat` occur as a contiguous subsequence of `l`
(`std::string::find(pat) != npos`)? -/
def containsSeq (pat : List Char) : List Char → Bool
  | [] => pat.isEmpty
  | b :: rest => hasPrefixChk pat (b :: rest) || containsSeq pat rest

/-- The substring searched for by `parseAsfFile` to recognize metadata
lines. -/
def jpgPat : List Char := (".jpg").data

/-- Bounds-checked write of column `i` (both rows) of a 2×N matrix:
`none` models an out-of-range Eigen coefficient access. -/
def matSet (s : Shape) (i : ℕ) (v : ℚ × ℚ) : Option Shape :=
  if i < s.length then some (s.set i v) else none

/-! ### parseAsfFile (dialect A) -/

/-- Extraction of the `⟨path⟩ ⟨type⟩ ⟨x⟩ ⟨y⟩` record of a long ASF line.
`none` when any of the four extractions fails, in which case the C++ `x`/`y`
are indeterminate (undefined behavior downstream). -/
def recordXY (line : List Char) : Option (ℚ × ℚ) :=
  match wsTokens line with
  | _path :: _type :: xs :: ys :: _ =>
    match parseFloatQ xs, parseFloatQ ys with
    | some x, some y => some (x, y)
    | _, _ => none
  | _ => none

/-- One iteration of the `parseAsfFile` line loop over the running state
`(landmarkCount, s)`, translated from `database_io.cpp` lines 90–119. -/
def asfStep (st : ℕ × Shape) (line : List Char) : Option (ℕ × Shape) :=
  match line with
  | [] => some st
  | c :: _ =>
    if c = '#' then some st
    else if containsSeq jpgPat line then some st
    else if line.length < 10 then
      -- int nbPoints = atol(line.c_str()); s.resize(2, nbPoints); s.fill(0);
      let nbPoints := atol line
      if nbPoints < 0 then none -- Eigen resize with a negative size: undefined
      else some (st.1, List.replicate nbPoints.toNat ((0 : ℚ), (0 : ℚ)))
    else
      match recordXY line with
      | none => none -- x or y left indeterminate by a failed extraction
      | some xy =>
        match matSet st.2 st.1 xy with
        | none => none -- write past the allocated columns
        | some s2 => some (st.1 + 1, s2)

/-- `parseAsfFile` (lines 83–122).  The caller always passes a freshly
constructed `core::Shape` (2×0), so the initial state is `(0, [])`; the
return value `s.rows() > 0 && s.cols() > 0` is `0 < s.length` since
`rows()` is the fixed 2. -/
def parseAsfFile (file : Option (List (List Char))) : Option (Bool × Shape) :=
  match (fileLines file).foldlM asfStep ((0 : ℕ), ([] : Shape)) with
  | none => none
  | some st => some (decide (0 < st.2.length), st.2)

/-! ### parsePtsFile (dialect B) -/

/-- Extraction `str >> x >> y` from a PTS body line; `none` when either
float extraction fails (`x`/`y` indeterminate). -/
def line2Floats (line : List Char) : Option (ℚ × ℚ) :=
  match wsTokens line with
  | xs :: ys :: _ =>
    match parseFloatQ xs, parseFloatQ ys with
    | some x, some y => some (x, y)
    | _, _ => none
  | _ => none

/-- The `str >> line >> numPoints` header extraction of `parsePtsFile`
(lines 205–207): a keyword token followed by an integer, taken from the
second line of the file (missing lines read as empty).  `none` when the
extraction fails, leaving the C++ `numPoints` indeterminate. -/
def ptsHeaderCount (lines : List (List Char)) : Option ℤ :=
  match wsTokens ((lines.get? 1).getD []) with
  | _kw :: tok :: _ => leadingInt tok
  | _ => none

/-- The body loop of `parsePtsFile` (lines 214–227): `remaining` points are
still to be read, the next write goes to column `i`.  A failed `getline`
returns `false` ("Failed to read points."); each point read is stored as
`(x - 1, y - 1)` (Matlab to C++ offset). -/
def readPtsPoints : ℕ → ℕ → List (List Char) → Shape → Option (Bool × Shape)
  | 0, _, _, s => some (true, s)
  | _ + 1, _, [], s => some (false, s)
  | remaining + 1, i, line :: rest, s =>
    match line2Floats line with
    | none => none -- stream extraction failed: x or y indeterminate
    | some xy =>
      match matSet s i (xy.1 - 1, xy.2 - 1) with
      | none => none
      | some s2 => readPtsPoints remaining (i + 1) rest s2

/-- `parsePtsFile` (lines 197–231): skip the version line, read the
landmark count from the second line, skip the `{` line, then read exactly
`numPoints` coordinate lines into a fresh zero-filled 2×numPoints matrix. -/
def parsePtsFile (file : Option (List (List Char))) : Option (Bool × Shape) :=
  match ptsHeaderCount (fileLines file) with
  | none => none -- numPoints read uninitialized
  | some np =>
    if np < 0 then none -- Eigen resize with a negative size: undefined
    else
      readPtsPoints np.toNat 0 ((fileLines file).drop 3)
        (List.replicate np.toNat ((0 : ℚ), (0 : ℚ)))

/-! ### Geometric transform -/

/-- `imageNeedsScaling` (lines 53–61): `some factor` models a `true` return
with the out-parameter set; `none` models `false` (the out-parameter is
untouched).  `maxLen` is the integer `max(width, height)`. -/
def imageNeedsScaling (s : Img) (p : ImportParameters) : Option ℚ :=
  let maxLen : ℤ := max (s.w : ℤ) (s.h : ℤ)
  if p.maxImageSideLength < maxLen then
    some ((p.maxImageSideLength : ℚ) / (maxLen : ℚ))
  else
    none

/-- Rounding used by `cv::resize` for the computed destination size. -/
def roundHalfUp (q : ℚ) : ℤ := Int.floor (q + 1/2)

/-- `scaleImageShapeAndRect` (lines 63–67): the raster resize is opaque apart
from its dimensions; `s *= factor` and `r *= factor` multiply every
coordinate. -/
def scaleImageShapeAndRect (img : Img) (s : Shape) (r : Rect) (f : ℚ) :
    Img × Shape × Rect :=
  (⟨(roundHalfUp ((img.w : ℚ) * f)).toNat, (roundHalfUp ((img.h : ℚ) * f)).toNat⟩,
   s.map (fun p => (p.1 * f, p.2 * f)),
   r.map (fun p => (p.1 * f, p.2 * f)))

/-- The per-column coordinate map of the mirror transform:
`x ↦ (img.cols - 1) - x`, `y` unchanged (`W` is the source image width). -/
def mirrorPt (W : ℕ) (p : ℚ × ℚ) : ℚ × ℚ := (((W : ℚ) - 1) - p.1, p.2)

/-- The write loop of `mirrorImageShapeAndRectVertically`: columns of `src`
are mirrored into consecutive columns of `dst`, starting at column `i`.
`none` models a write past `dst`'s allocated columns. -/
def mirrorWrites (W : ℕ) : List (ℚ × ℚ) → ℕ → List (ℚ × ℚ) → Option (List (ℚ × ℚ))
  | [], _, dst => some dst
  | p :: rest, i, dst =>
    match matSet dst i (mirrorPt W p) with
    | none => none
    | some dst2 => mirrorWrites W rest (i + 1) dst2

/-- `cv::flip(img, dst, 1)`: a horizontal flip keeps the dimensions. -/
def flipImage (m : Img) : Img := m

/-- `mirrorImageShapeAndRectVertically` (lines 69–81).  The destination
shape is resized to `s.cols()` columns before its write loop (the resize
leaves the entries uninitialized, but every column is then written); the
destination rect is written without a resize, so its allocated columns are
whatever the caller passed in `dstRect`. -/
def mirrorImageShapeAndRectVertically (img : Img) (s : Shape) (r : Rect)
    (dstRect : Rect) : Option (Img × Shape × Rect) :=
  let dstImage := flipImage img
  match mirrorWrites img.w s 0 (List.replicate s.length ((0 : ℚ), (0 : ℚ))) with
  | none => none
  | some dstShape =>
    match mirrorWrites img.w r 0 dstRect with
    | none => none
    | some dstRect2 => some (dstImage, dstShape, dstRect2)

/-! ### Rectangle synthesis and conversion collaborators -/

/-- Modelled from the spec: `core::shapeBounds` (declared outside the given
sources) synthesizes the tight axis-aligned bound of a shape's coordinates
as a 4-corner `Rect` (§4.3, §8). -/
def shapeBounds (s : Shape) : Rect :=
  match s with
  | [] => defaultRect
  | p :: rest =>
    let mnx := rest.foldl (fun a q => min a q.1) p.1
    let mxx := rest.foldl (fun a q => max a q.1) p.1
    let mny := rest.foldl (fun a q => min a q.2) p.2
    let mxy := rest.foldl (fun a q => max a q.2) p.2
    [(mnx, mny), (mxx, mny), (mnx, mxy), (mxx, mxy)]

/-- `util::toDest`: converts a `cv::Mat` to a `core::Image` of the same
dimensions (raster contents are opaque here). -/
def toDest (m : Img) : Img := m

/-! ### The two dialect importers -/

/-- One import candidate: the annotation file paired with the image of the
same base name.  `file = none` models an unopenable annotation file and
`img = none` a failed decode (`cvImg.empty()`). -/
structure Candidate where
  file : Option (List (List Char))
  img : Option Img
deriving DecidableEq, Repr

/-- The candidate loop shared by both importers; `i` is the loop index used
to pair candidate `i` with externally loaded rectangle `i`. -/
def importLoop (step : DBState → ℕ → Candidate → Option DBState) :
    DBState → ℕ → List Candidate → Option DBState
  | st, _, [] => some st
  | st, i, c :: rest =>
    match step st i c with
    | none => none
    | some st2 => importLoop step st2 (i + 1) rest

/-- The body of the IMM candidate loop (lines 143–190): parse, decode, skip
on failure, denormalize the fractional coordinates by the decoded image
size, resolve the rectangle, scale, append, and optionally append the
mirrored entry (images, shapes and rects each receive one column triple). -/
def immStep (opts : ImportParameters) (loadedRects : List Rect)
    (st : DBState) (i : ℕ) (c : Candidate) : Option DBState :=
  match parseAsfFile c.file with
  | none => none
  | some (asfOk, s0) =>
    match asfOk, c.img with
    | true, some cvImg =>
      -- s.row(0) *= cvImg.cols; s.row(1) *= cvImg.rows
      let s := s0.map (fun p => (p.1 * (cvImg.w : ℚ), p.2 * (cvImg.h : ℚ)))
      match if loadedRects.isEmpty then some (shapeBounds s) else loadedRects.get? i with
      | none => none -- loadedRects[i] out of range (unreachable after the count check)
      | some r =>
        let scaled := match imageNeedsScaling cvImg opts with
          | some f => scaleImageShapeAndRect cvImg s r f
          | none => (cvImg, s, r)
        let st1 : DBState := ⟨st.images ++ [toDest scaled.1],
          st.shapes ++ [scaled.2.1], st.rects ++ [scaled.2.2]⟩
        if opts.generateVerticallyMirrored then
          match mirrorImageShapeAndRectVertically scaled.1 scaled.2.1 scaled.2.2 defaultRect with
          | none => none
          | some (cvF, sF, rF) =>
            some ⟨st1.images ++ [toDest cvF], st1.shapes ++ [sF], st1.rects ++ [rF]⟩
        else some st1
    | _, _ => some st

/-- `importIMMFaceDatabase` (lines 124–194).  The return value at line 193
is `shapes.size() > 0`: the total size of the caller's collection, not the
number of entries appended by this call. -/
def importIMMFaceDatabase (cands : List Candidate) (loadedRects : List Rect)
    (opts : ImportParameters) (st : DBState) : Option (Bool × DBState) :=
  if loadedRects ≠ [] ∧ cands.length ≠ loadedRects.length then some (false, st)
  else
    match importLoop (immStep opts loadedRects) st 0 cands with
    | none => none
    | some st2 => some (decide (0 < st2.shapes.length), st2)

/-- The body of the iBug candidate loop (lines 253–298).  Identical to the
IMM body except that there is no denormalization and that, in the mirrored
branch, line 295 appends the mirrored rectangle to the `shapes` collection
(`shapes.push_back(rectFlipped)`), not to `rects`. -/
def ibugStep (opts : ImportParameters) (loadedRects : List Rect)
    (st : DBState) (i : ℕ) (c : Candidate) : Option DBState :=
  match parsePtsFile c.file with
  | none => none
  | some (ptsOk, s) =>
    match ptsOk, c.img with
    | true, some cvImg =>
      match if loadedRects.isEmpty then some (shapeBounds s) else loadedRects.get? i with
      | none => none
      | some r =>
        let scaled := match imageNeedsScaling cvImg opts with
          | some f => scaleImageShapeAndRect cvImg s r f
          | none => (cvImg, s, r)
        let st1 : DBState := ⟨st.images ++ [toDest scaled.1],
          st.shapes ++ [scaled.2.1], st.rects ++ [scaled.2.2]⟩
        if opts.generateVerticallyMirrored then
          match mirrorImageShapeAndRectVertically scaled.1 scaled.2.1 scaled.2.2 defaultRect with
          | none => none
          | some (cvF, sF, rF) =>
            some ⟨st1.images ++ [toDest cvF], st1.shapes ++ [sF] ++ [rF], st1.rects⟩
        else some st1
    | _, _ => some st

/-- `importIBugAnnotatedFaceDatabase` (lines 233–303).  The return value at
line 301 is `(shapes.size() - initialSize) > 0` with `size_t` arithmetic and
`initialSize = images.size()`; since both operands are below `2^64`, the
wrapped difference is positive exactly when the two sizes differ. -/
def importIBugAnnotatedFaceDatabase (cands : List Candidate)
    (loadedRects : List Rect) (opts : ImportParameters) (st : DBState) :
    Option (Bool × DBState) :=
  if loadedRects ≠ [] ∧ cands.length ≠ loadedRects.length then some (false, st)
  else
    match importLoop (ibugStep opts loadedRects) st 0 cands with
    | none => none
    | some st2 => some (decide (st2.shapes.length ≠ st.images.length), st2)

/-- `importDatabase` (lines 38–51): dialect dispatch by the presence of
candidate files of each extension. -/
def importDatabase (asfCands ptsCands : List Candidate) (loadedRects : List Rect)
    (opts : ImportParameters) (st : DBState) : Option (Bool × DBState) :=
  if 0 < asfCands.length then importIMMFaceDatabase asfCands loadedRects opts st
  else if 0 < ptsCands.length then importIBugAnnotatedFaceDatabase ptsCands loadedRects opts st
  else some (false, st)

/-! ### Helper lemmas -/

theorem dbio_take_set {α : Type} :
    ∀ (l : List α) (i : ℕ) (v : α), i < l.length →
      (l.set i v).take (i + 1) = l.take i ++ [v]
  | [], i, v, h => absurd h (by simp)
  | _ :: _, 0, v, _ => by simp
  | a :: t, i + 1, v, h => by
    have := dbio_take_set t i v (by simpa using h)
    simp [List.set, this]

theorem dbio_drop_set {α : Type} :
    ∀ (l : List α) (i j : ℕ) (v : α), i < j → (l.set i v).drop j = l.drop j
  | [], _, _, _, _ => by simp
  | a :: t, 0, j + 1, v, _ => by simp
  | a :: t, i + 1, j + 1, v, h => by
    have := dbio_drop_set t i j v (by omega)
    simp [List.set, this]

/-- Closed form of the mirror write loop: when all writes fit, it fills the
columns `i, …, i + src.length - 1` of `dst` with the mirrored columns of
`src` and keeps the rest. -/
theorem mirrorWrites_spec (W : ℕ) :
    ∀ (src : List (ℚ × ℚ)) (i : ℕ) (dst : List (ℚ × ℚ)),
      i + src.length ≤ dst.length →
      mirrorWrites W src i dst =
        some (dst.take i ++ src.map (mirrorPt W) ++ dst.drop (i + src.length))
  | [], i, dst, _ => by simp [mirrorWrites, List.take_append_drop]
  | p :: rest, i, dst, h => by
    have hi : i < dst.length := by simp at h; omega
    have hrec := mirrorWrites_spec W rest (i + 1) (dst.set i (mirrorPt W p))
      (by simp at h ⊢; omega)
    simp only [mirrorWrites, matSet, if_pos hi, hrec]
    rw [dbio_take_set dst i _ hi, dbio_drop_set dst i (i + 1 + rest.length) _ (by omega)]
    simp only [List.length_cons]
    rw [show i + (rest.length + 1) = i + 1 + rest.length by omega]
    simp

theorem readPtsPoints_length (n : ℕ) :
    ∀ (i : ℕ) (body : List (List Char)) (s : Shape) (b : Bool) (s2 : Shape),
      readPtsPoints n i body s = some (b, s2) → s2.length = s.length := by
  induction n with
  | zero =>
    intro i body s b s2 h
    simp [readPtsPoints] at h
    rw [← h.2]
  | succ m ih =>
    intro i body s b s2 h
    cases body with
    | nil =>
      simp [readPtsPoints] at h
      rw [← h.2]
    | cons line rest =>
      rw [readPtsPoints] at h
      cases hlf : line2Floats line with
      | none => simp [hlf] at h
      | some xy =>
        rw [hlf] at h
        cases hms : matSet s i (xy.1 - 1, xy.2 - 1) with
        | none => simp [hms] at h
        | some s3 =>
          simp only [hms] at h
          have h3 : s3.length = s.length := by
            unfold matSet at hms
            split at hms
            · rw [← Option.some.inj hms]; simp
            · cases hms
          rw [ih (i + 1) rest s3 b s2 h, h3]

theorem readPtsPoints_trunc :
    ∀ (body : List (List Char)) (n i : ℕ) (s : Shape),
      body.length < n → (∀ l ∈ body, (line2Floats l).isSome) → i + n ≤ s.length →
      ∃ s2, readPtsPoints n i body s = some (false, s2) := by
  intro body
  induction body with
  | nil =>
    intro n i s hlt _ _
    cases n with
    | zero => omega
    | succ m => exact ⟨s, by simp [readPtsPoints]⟩
  | cons line rest ih =>
    intro n i s hlt hsome hle
    cases n with
    | zero => omega
    | succ m =>
      have hl : (line2Floats line).isSome := hsome line (by simp)
      obtain ⟨xy, hxy⟩ := Option.isSome_iff_exists.mp hl
      have hi : i < s.length := by omega
      obtain ⟨s2, hs2⟩ := ih m (i + 1) (s.set i (xy.1 - 1, xy.2 - 1))
        (by simp at hlt; omega) (fun l hl2 => hsome l (by simp [hl2]))
        (by simp only [List.length_set]; omega)
      refine ⟨s2, ?_⟩
      rw [readPtsPoints, hxy]
      simp only [matSet, if_pos hi, hs2]

/-- Closed form of the destination-shape computation of the mirror
transform: the resize-then-write loop produces exactly the columnwise
mirrored shape. -/
theorem mirrorShape_closed (W : ℕ) (s : Shape) :
    mirrorWrites W s 0 (List.replicate s.length ((0 : ℚ), (0 : ℚ))) =
      some (s.map (mirrorPt W)) := by
  have h := mirrorWrites_spec W s 0 (List.replicate s.length ((0 : ℚ), (0 : ℚ)))
    (by simp)
  simpa using h

/-- The coordinate mirror map is an involution. -/
theorem mirrorPt_invol (W : ℕ) (p : ℚ × ℚ) : mirrorPt W (mirrorPt W p) = p := by
  cases p with
  | mk x y => simp [mirrorPt, sub_sub_cancel]

/-! ### Claims -/

/-- C1 (code_bug evidence): the iBug importer with mirrored augmentation
enabled desynchronizes the three output collections.  One candidate with a
valid 3-landmark PTS annotation and a decodable 100×100 image, no external
rectangles, initially empty collections: the call succeeds (`true`) but
afterwards `images` has 2 elements, `shapes` has 3 and `rects` has 1,
because line 295 appends the mirrored rectangle to `shapes`.  The claim
states that all three lengths are equal after every successful call and
after every appended entry. -/
theorem c1_ibug_mirrored_append_desync :
    (importIBugAnnotatedFaceDatabase
        [⟨some [("1.000000").data, ("n_points: 3").data, ("\x7b").data,
            ("2 2").data, ("4 2").data, ("3 4").data, ("\x7d").data],
          some ⟨100, 100⟩⟩]
        [] ⟨1000, true⟩ ⟨[], [], []⟩).map
      (fun p => (p.1, p.2.images.length, p.2.shapes.length, p.2.rects.length)) =
      some (true, 2, 3, 1) := by decide

/-- C2 (code_bug evidence): `importIMMFaceDatabase` returns
`shapes.size() > 0` (line 193), not the entry count of this call.  With a
single candidate whose annotation file cannot be opened (so the candidate
is skipped and zero entries are appended) and caller collections already
holding one entry from a previous call, the call returns `true` and leaves
the collections unchanged; the claim requires `false` whenever this call
appends no entry. -/
theorem c2_imm_success_without_new_entries :
    importIMMFaceDatabase [⟨none, none⟩] [] ⟨1000, false⟩
        ⟨[⟨7, 5⟩], [[((0 : ℚ), (0 : ℚ))]], [defaultRect]⟩ =
      some (true, ⟨[⟨7, 5⟩], [[((0 : ℚ), (0 : ℚ))]], [defaultRect]⟩) := by decide

/-- C3: in both dialect importers, a non-empty externally loaded rectangle
set whose count differs from the number of discovered candidates makes the
call return `false` immediately, with the output collections exactly as
passed in. -/
theorem c3_rect_count_mismatch_aborts :
    ∀ (cands : List Candidate) (loadedRects : List Rect)
      (opts : ImportParameters) (st : DBState),
      loadedRects ≠ [] → cands.length ≠ loadedRects.length →
      importIMMFaceDatabase cands loadedRects opts st = some (false, st) ∧
      importIBugAnnotatedFaceDatabase cands loadedRects opts st = some (false, st) := by
  intro cands lr opts st h1 h2
  constructor
  · unfold importIMMFaceDatabase
    rw [if_pos ⟨h1, h2⟩]
  · unfold importIBugAnnotatedFaceDatabase
    rw [if_pos ⟨h1, h2⟩]

/-- Witness for C3: the spec's own scenario, 5 discovered annotation files
against 3 externally loaded rectangles. -/
theorem c3_rect_count_mismatch_aborts_witness :
    importIMMFaceDatabase (List.replicate 5 ⟨none, none⟩)
        (List.replicate 3 defaultRect) ⟨100, false⟩ ⟨[], [], []⟩ =
      some (false, ⟨[], [], []⟩) ∧
    importIBugAnnotatedFaceDatabase (List.replicate 5 ⟨none, none⟩)
        (List.replicate 3 defaultRect) ⟨100, false⟩ ⟨[], [], []⟩ =
      some (false, ⟨[], [], []⟩) :=
  c3_rect_count_mismatch_aborts _ _ _ _ (by decide) (by decide)

/-- Counterexample to C4 as stated: an ASF file declaring 3 landmarks but
providing a single coordinate line parses *successfully* (the missing
columns stay zero-filled); the claim says each parser fails whenever fewer
coordinate lines are available than declared. -/
theorem c4_parse_failure_counterexample :
    parseAsfFile (some [("3").data, ("p1 t2 0.5 0.5").data]) =
      some (true, [((1 : ℚ)/2, (1 : ℚ)/2), (0, 0), (0, 0)]) := by decide

/-- C4 amended: `parseAsfFile` fails when the file cannot be opened, and
`parsePtsFile` fails when its declared landmark count exceeds the number of
available coordinate lines (each of which parses as a coordinate pair —
otherwise the source reads indeterminate floats). -/
theorem c4_parse_failure_amended :
    parseAsfFile none = some (false, []) ∧
    ∀ (lines : List (List Char)) (np : ℤ),
      ptsHeaderCount lines = some np → 0 ≤ np →
      (lines.drop 3).length < np.toNat →
      (∀ l ∈ lines.drop 3, (line2Floats l).isSome) →
      ∃ s, parsePtsFile (some lines) = some (false, s) := by
  constructor
  · decide
  · intro lines np h0 hnn hlt hsome
    obtain ⟨s2, hr⟩ := readPtsPoints_trunc (lines.drop 3) np.toNat 0
      (List.replicate np.toNat ((0 : ℚ), (0 : ℚ))) hlt hsome (by simp)
    refine ⟨s2, ?_⟩
    simp only [parsePtsFile, fileLines, Option.getD_some, h0]
    rw [if_neg (by omega : ¬ np < 0)]
    exact hr

/-- Witness for C4 (amended): a PTS file declaring 3 points but truncated
after its first coordinate line parses as a failure. -/
theorem c4_parse_failure_amended_witness :
    parseAsfFile none = some (false, []) ∧
    ∃ s, parsePtsFile (some [("1.000000").data, ("n_points: 3").data,
        ("\x7b").data, ("2 2").data]) = some (false, s) :=
  ⟨c4_parse_failure_amended.1,
    c4_parse_failure_amended.2 _ 3 (by decide) (by decide) (by decide) (by decide)⟩

/-- Counterexample to C5 as stated: a PTS file declaring `n_points: 0`
parses *successfully* with a zero-column shape; the claim says each parser
succeeds only if the resulting shape has at least one column. -/
theorem c5_positive_landmarks_counterexample :
    parsePtsFile (some [("1.000000").data, ("n_points: 0").data,
        ("\x7b").data, ("\x7d").data]) = some (true, ([] : Shape)) := by decide

/-- C5 amended: `parseAsfFile` succeeds only with at least one column;
`parsePtsFile` succeeds only with exactly its declared (non-negative)
landmark count of columns, which may be zero. -/
theorem c5_positive_landmarks_amended :
    (∀ (file : Option (List (List Char))) (s : Shape),
        parseAsfFile file = some (true, s) → 0 < s.length) ∧
    (∀ (lines : List (List Char)) (s : Shape),
        parsePtsFile (some lines) = some (true, s) →
        ∃ np : ℤ, ptsHeaderCount lines = some np ∧ 0 ≤ np ∧ s.length = np.toNat) := by
  constructor
  · intro file s h
    simp only [parseAsfFile] at h
    cases hf : (fileLines file).foldlM asfStep ((0 : ℕ), ([] : Shape)) with
    | none => simp [hf] at h
    | some st =>
      simp only [hf, Option.some.injEq, Prod.mk.injEq] at h
      have hlen := of_decide_eq_true h.1
      rw [← h.2]
      exact hlen
  · intro lines s h
    simp only [parsePtsFile] at h
    cases hh : ptsHeaderCount (fileLines (some lines)) with
    | none => simp [hh] at h
    | some np =>
      simp only [hh] at h
      by_cases hneg : np < 0
      · rw [if_pos hneg] at h
        cases h
      · rw [if_neg hneg] at h
        refine ⟨np, by simpa [fileLines] using hh, by omega, ?_⟩
        have hlen := readPtsPoints_length np.toNat 0
          ((fileLines (some lines)).drop 3) _ true s h
        simpa using hlen

/-- Witness for C5 (amended): the two-line ASF input that succeeds with 3
columns, and the 3-point PTS sample. -/
theorem c5_positive_landmarks_amended_witness :
    0 < ([((1 : ℚ)/2, (1 : ℚ)/2), (0, 0), (0, 0)] : Shape).length ∧
    ∃ np : ℤ,
      ptsHeaderCount [("1.000000").data, ("n_points: 3").data, ("\x7b").data,
        ("2 2").data, ("4 2").data, ("3 4").data, ("\x7d").data] = some np ∧
      0 ≤ np ∧
      ([((1 : ℚ), (1 : ℚ)), (3, 1), (2, 3)] : Shape).length = np.toNat :=
  ⟨c5_positive_landmarks_amended.1 (some [("3").data, ("p1 t2 0.5 0.5").data])
      _ (by decide),
    c5_positive_landmarks_amended.2 _ _ (by decide)⟩

/-- C6: the PTS parser stores `(x - 1, y - 1)` for every coordinate pair it
reads, and on the spec's concrete 3-point input it succeeds with columns
exactly `[(1,1), (3,1), (2,3)]`. -/
theorem c6_pts_offset_concrete :
    (∀ (remaining i : ℕ) (line : List Char) (rest : List (List Char))
        (s : Shape) (x y : ℚ),
        line2Floats line = some (x, y) → i < s.length →
        readPtsPoints (remaining + 1) i (line :: rest) s =
          readPtsPoints remaining (i + 1) rest (s.set i (x - 1, y - 1))) ∧
    parsePtsFile (some [("1.000000").data, ("n_points: 3").data, ("\x7b").data,
        ("2 2").data, ("4 2").data, ("3 4").data, ("\x7d").data]) =
      some (true, [((1 : ℚ), (1 : ℚ)), (3, 1), (2, 3)]) := by
  constructor
  · intro remaining i line rest s x y hlf hi
    rw [readPtsPoints, hlf]
    simp only [matSet, if_pos hi]
  · decide

/-- Witness for C6: the first body line "2 2" of the sample is stored at
column 0 as `(2 - 1, 2 - 1)`. -/
theorem c6_pts_offset_concrete_witness :
    readPtsPoints 3 0 [("2 2").data, ("4 2").data, ("3 4").data, ("\x7d").data]
        (List.replicate 3 ((0 : ℚ), (0 : ℚ))) =
      readPtsPoints 2 1 [("4 2").data, ("3 4").data, ("\x7d").data]
        ((List.replicate 3 ((0 : ℚ), (0 : ℚ))).set 0 ((2 : ℚ) - 1, (2 : ℚ) - 1)) :=
  c6_pts_offset_concrete.1 2 0 (("2 2").data) _ _ 2 2 (by decide) (by decide)

/-- Counterexample to C7 as stated: the short line "ab" is not purely
numeric, yet the parser treats it as a landmark-count line — `atol("ab")`
is 0, so it clobbers the previously allocated 2×3 matrix down to 2×0 and
the parse of `["3", "ab"]` returns failure with an empty shape.  Under the
claim, "ab" would not be interpreted as a count, the 2×3 matrix would
survive and the parse would succeed. -/
theorem c7_short_line_counterexample :
    parseAsfFile (some [("3").data, ("ab").data]) = some (false, []) := by decide

/-- C7 amended: every non-comment line shorter than 10 characters that does
not contain ".jpg" is treated as a landmark-count line, numeric or not:
the shape is reallocated to `atol(line)` zero columns (for a non-negative
`atol` result; a negative one hits an undefined Eigen resize). -/
theorem c7_short_line_amended :
    ∀ (st : ℕ × Shape) (c : Char) (rest : List Char),
      c ≠ '#' → containsSeq jpgPat (c :: rest) = false →
      (c :: rest).length < 10 → 0 ≤ atol (c :: rest) →
      asfStep st (c :: rest) =
        some (st.1, List.replicate (atol (c :: rest)).toNat ((0 : ℚ), (0 : ℚ))) := by
  intro st c rest hc hjpg hlen hnn
  simp [asfStep, hc, hjpg, hlen, not_lt.mpr hnn]
  intro h9
  exfalso
  simp only [List.length_cons] at hlen
  omega

/-- Witness for C7 (amended): the non-numeric short line "ab" reallocates
any current shape to `atol("ab") = 0` columns. -/
theorem c7_short_line_amended_witness :
    asfStep (0, List.replicate 3 ((0 : ℚ), (0 : ℚ))) ('a' :: 'b' :: []) =
      some (0, List.replicate (atol ('a' :: 'b' :: [])).toNat ((0 : ℚ), (0 : ℚ))) :=
  c7_short_line_amended (0, List.replicate 3 ((0 : ℚ), (0 : ℚ))) 'a' ('b' :: [])
    (by decide) (by decide) (by decide) (by decide)

/-- Counterexample to C8 as stated: with the configured cap 0 and image size
(200, 50) the function returns `true` with factor 0, which is not strictly
between 0 and 1, so the claimed equivalence fails at this input. -/
theorem c8_scale_decision_counterexample :
    ¬ ((∃ f, imageNeedsScaling ⟨200, 50⟩ ⟨0, false⟩ = some f ∧
          f = ((0 : ℤ) : ℚ) / ((max ((200 : ℕ) : ℤ) ((50 : ℕ) : ℤ) : ℤ) : ℚ) ∧
          0 < f ∧ f < 1) ↔
        (0 : ℤ) < max ((200 : ℕ) : ℤ) ((50 : ℕ) : ℤ)) := by
  intro hiff
  obtain ⟨f, hf, -, hpos, -⟩ := hiff.mpr (by decide)
  have hz : imageNeedsScaling ⟨200, 50⟩ ⟨0, false⟩ = some 0 := by decide
  rw [hz] at hf
  rw [← Option.some.inj hf] at hpos
  exact lt_irrefl _ hpos

/-- C8 amended: for a *positive* configured cap, the function returns
`true` with factor `cap / max(width, height)`, a value strictly between 0
and 1, exactly when `max(width, height)` exceeds the cap; and the two
concrete instances of the spec hold: cap 100 with size (200, 50) gives
factor 1/2, and size (80, 50) needs no scaling. -/
theorem c8_scale_decision_amended :
    (∀ (w h : ℕ) (cap : ℤ) (b : Bool), 0 < cap →
        ((∃ f, imageNeedsScaling ⟨w, h⟩ ⟨cap, b⟩ = some f ∧
            f = (cap : ℚ) / ((max (w : ℤ) (h : ℤ) : ℤ) : ℚ) ∧ 0 < f ∧ f < 1) ↔
          cap < max (w : ℤ) (h : ℤ))) ∧
    imageNeedsScaling ⟨200, 50⟩ ⟨100, false⟩ = some (1/2) ∧
    imageNeedsScaling ⟨80, 50⟩ ⟨100, false⟩ = none := by
  refine ⟨?_, by decide, by decide⟩
  intro w h cap b hcap
  have hmax : ∀ hlt : cap < max (w : ℤ) (h : ℤ), (0 : ℤ) < max (w : ℤ) (h : ℤ) :=
    fun hlt => lt_trans hcap hlt
  constructor
  · rintro ⟨f, hf, -, -, -⟩
    by_contra hnot
    simp [imageNeedsScaling, hnot] at hf
  · intro hlt
    refine ⟨(cap : ℚ) / ((max (w : ℤ) (h : ℤ) : ℤ) : ℚ), ?_, rfl, ?_, ?_⟩
    · simp [imageNeedsScaling, hlt]
    · apply div_pos
      · exact_mod_cast hcap
      · exact_mod_cast hmax hlt
    · rw [div_lt_one (by exact_mod_cast hmax hlt)]
      exact_mod_cast hlt

/-- Witness for C8 (amended): instantiated at cap 100 and size (200, 50). -/
theorem c8_scale_decision_amended_witness :
    ∃ f, imageNeedsScaling ⟨200, 50⟩ ⟨100, false⟩ = some f ∧
      f = ((100 : ℤ) : ℚ) / ((max ((200 : ℕ) : ℤ) ((50 : ℕ) : ℤ) : ℤ) : ℚ) ∧
      0 < f ∧ f < 1 :=
  (c8_scale_decision_amended.1 200 50 100 false (by decide)).mpr (by decide)

/-- C9: the mirror transform maps every column `(x, y)` of the shape to
`(W - 1 - x, y)` where `W` is the image width, columnwise without
reordering (the destination shape is exactly the columnwise image of the
source); the same map is applied to every rectangle column; and applying
the coordinate map twice with the same `W` is the identity. -/
theorem c9_mirror_coordinate_map :
    (∀ (W : ℕ) (s : Shape),
        mirrorWrites W s 0 (List.replicate s.length ((0 : ℚ), (0 : ℚ))) =
          some (s.map (mirrorPt W))) ∧
    (∀ (W : ℕ) (r : Rect), r.length = 4 →
        mirrorWrites W r 0 defaultRect = some (r.map (mirrorPt W))) ∧
    (∀ (W : ℕ) (s : Shape), (s.map (mirrorPt W)).map (mirrorPt W) = s) := by
  refine ⟨mirrorShape_closed, ?_, ?_⟩
  · intro W r hr
    have h := mirrorWrites_spec W r 0 defaultRect
      (by simp [defaultRect, hr])
    simpa [defaultRect, hr] using h
  · intro W s
    induction s with
    | nil => rfl
    | cons p t ih => simp [mirrorPt_invol, ih]

/-- Witness for C9: the rectangle branch applied to a concrete 4-column
rectangle with image width 3. -/
theorem c9_mirror_coordinate_map_witness :
    mirrorWrites 3 [((0 : ℚ), (0 : ℚ)), (2, 0), (0, 1), (2, 1)] 0 defaultRect =
      some ([((0 : ℚ), (0 : ℚ)), (2, 0), (0, 1), (2, 1)].map (mirrorPt 3)) :=
  c9_mirror_coordinate_map.2.1 3 _ (by decide)

/-- C10: with the destination rectangle default-constructed (4 allocated
columns, as at both importer call sites) every write of the mirror
transform is in bounds: the transform succeeds for every source shape and
every source rectangle of at most 4 columns — in particular for the
program's rectangles, which always have exactly 4 — and the destination
shape has been resized to the source shape's column count. -/
theorem c10_mirror_writes_in_bounds :
    ∀ (img : Img) (s r : Shape), r.length ≤ defaultRect.length →
      ∃ dImg dShape dRect,
        mirrorImageShapeAndRectVertically img s r defaultRect =
          some (dImg, dShape, dRect) ∧ dShape.length = s.length := by
  intro img s r h
  have h1 := mirrorShape_closed img.w s
  have h2 := mirrorWrites_spec img.w r 0 defaultRect (by simpa using h)
  refine ⟨flipImage img, s.map (mirrorPt img.w),
    defaultRect.take 0 ++ r.map (mirrorPt img.w) ++ defaultRect.drop (0 + r.length),
    ?_, ?_⟩
  · simp only [mirrorImageShapeAndRectVertically, h1, h2]
  · simp

/-- Witness for C10: a one-column shape and the synthesized bound of that
shape (4 columns) mirror successfully against a default-constructed
destination rectangle. -/
theorem c10_mirror_writes_in_bounds_witness :
    ∃ dImg dShape dRect,
      mirrorImageShapeAndRectVertically ⟨3, 2⟩ [((1 : ℚ), (1 : ℚ))]
          (shapeBounds [((1 : ℚ), (1 : ℚ))]) defaultRect =
        some (dImg, dShape, dRect) ∧
      dShape.length = ([((1 : ℚ), (1 : ℚ))] : Shape).length :=
  c10_mirror_writes_in_bounds ⟨3, 2⟩ _ _ (by decide)

end DestIO

